import Mathlib

/-!
Shallow embedding of the COOUCart wallet ledger subsystem.

Sources embedded:
* `src/wallet_system_setup.sql` — tables `wallets`, `transactions`, `orders`
  and the `update_wallet_balance` trigger function, attached by
  `CREATE TRIGGER update_wallet_balance_on_transaction_update AFTER UPDATE ON
  transactions` (note: the trigger fires on UPDATE only, not on INSERT).
* `src/contexts/WalletContext.tsx` — `fundWallet`, `withdrawFunds`,
  `makePayment`, `loadTransactions`, `loadOrders`, and the `setTimeout`
  settlement callbacks (which issue `UPDATE transactions SET status =
  'completed' WHERE id = …`).

Modelling conventions:
* SQL `numeric` amounts are modelled as `Int` (the code only adds,
  subtracts, negates and compares amounts).
* `Date.now()` is an explicit `now : Nat` argument to each operation;
  generated references are the strings `"DEP_" ++ toString now` etc.,
  exactly as in the source.
* Row ids (`gen_random_uuid()`) are allocated from a counter `nextId`.
* The `reference text UNIQUE` column constraint is modelled: an insert
  whose reference already exists fails, and the surrounding `try/catch`
  turns that into a `{ success: false, error: … }` result.
* Each fallible persistence step additionally takes a `Bool` failure flag
  standing for an opaque backend write error (the `PersistenceFailure`
  taxonomy of the spec); `false` means the write succeeds.
-/

namespace COOUCart

/-- The `type` column of `transactions`: CHECK (type IN ('deposit', 'withdrawal', 'payment', 'refund')). -/
inductive TxKind where
  | deposit | withdrawal | payment | refund
deriving DecidableEq, Repr

/-- The `status` column of `transactions`: CHECK (status IN ('pending', 'completed', 'failed', 'cancelled')). -/
inductive TxStatus where
  | pending | completed | failed | cancelled
deriving DecidableEq, Repr

/-- The `status` column of `orders`: CHECK (status IN ('pending', 'paid', 'shipped', 'delivered', 'cancelled')). -/
inductive OrderStatus where
  | pending | paid | shipped | delivered | cancelled
deriving DecidableEq, Repr

/-- A row of the `wallets` table. -/
structure Wallet where
  id : Nat
  userId : Nat
  balance : Int
deriving DecidableEq, Repr

/-- A row of the `transactions` table. -/
structure Transaction where
  id : Nat
  walletId : Nat
  kind : TxKind
  amount : Int
  status : TxStatus
  description : String
  reference : String
  metadata : List (String × String)
  createdAt : Nat
deriving DecidableEq, Repr

/-- A row of the `orders` table. -/
structure Order where
  id : Nat
  buyerId : Nat
  productId : Nat
  amount : Int
  status : OrderStatus
  paymentTransactionId : Option Nat
  createdAt : Nat
deriving DecidableEq, Repr

/-- A row of the `products` table (only the fields `makePayment` touches). -/
structure Product where
  id : Nat
  title : String
  price : Int
deriving DecidableEq, Repr

/-- The persisted state the wallet subsystem reads and writes. -/
structure DB where
  wallets : List Wallet
  transactions : List Transaction
  orders : List Order
  products : List Product
  nextId : Nat
deriving DecidableEq, Repr

/-- Result shape of `fundWallet` / `withdrawFunds`:
`Promise<\x7b success: boolean; error?: string \x7d>`. -/
structure OpResult where
  success : Bool
  error : Option String
deriving DecidableEq, Repr

/-- Result shape of `makePayment`:
`Promise<\x7b success: boolean; orderId?: string; error?: string \x7d>`. -/
structure PayResult where
  success : Bool
  orderId : Option Nat
  error : Option String
deriving DecidableEq, Repr

/-- The caller's wallet as the context resolves it (`!profile || !wallet`
guard): `none` when there is no profile or no wallet row for the user. -/
def resolveWallet (db : DB) (uid? : Option Nat) : Option Wallet :=
  uid?.bind fun uid => db.wallets.find? fun w => w.userId == uid

/-- Whether some persisted transaction already carries `ref`
(the `reference text UNIQUE` constraint). -/
def referenceTaken (db : DB) (ref : String) : Bool :=
  db.transactions.any fun t => t.reference == ref

/-- The row updates written by `UPDATE wallets SET balance = balance + amt
WHERE id = wid` when the table's `CHECK (balance >= 0)` passes on every
written row (see `creditViolates` for the raise). -/
def creditWallets (ws : List Wallet) (wid : Nat) (amt : Int) : List Wallet :=
  ws.map fun w => if w.id == wid then { w with balance := w.balance + amt } else w

/-- The row updates written by `UPDATE wallets SET balance = balance - amt
WHERE id = wid` when the table's `CHECK (balance >= 0)` passes on every
written row (see `debitViolates` for the raise). -/
def debitWallets (ws : List Wallet) (wid : Nat) (amt : Int) : List Wallet :=
  ws.map fun w => if w.id == wid then { w with balance := w.balance - amt } else w

/-- Whether `UPDATE wallets SET balance = balance + amt WHERE id = wid`
raises on the `wallets` table's `CHECK (balance >= 0)` (sql line 8): true
exactly when some matched row would get a negative balance. -/
def creditViolates (ws : List Wallet) (wid : Nat) (amt : Int) : Bool :=
  ws.any fun w => w.id == wid && decide (w.balance + amt < 0)

/-- Whether `UPDATE wallets SET balance = balance - amt WHERE id = wid`
raises on `CHECK (balance >= 0)`. -/
def debitViolates (ws : List Wallet) (wid : Nat) (amt : Int) : Bool :=
  ws.any fun w => w.id == wid && decide (w.balance - amt < 0)

/-- All stored balances are non-negative — the state space the `wallets`
table admits under its `CHECK (balance >= 0)` constraint. -/
def walletsOk (ws : List Wallet) : Bool :=
  ws.all fun w => decide (0 ≤ w.balance)

/-- Body of the SQL trigger function `update_wallet_balance()`, fired AFTER
UPDATE on `transactions` with the OLD and NEW row versions.  Each inner
`UPDATE wallets` raises (result `none`) when it would violate
`CHECK (balance >= 0)`, aborting the enclosing statement.  In an UPDATE
trigger `OLD.status IS NULL` never holds, so that disjunct of the source's
first condition is dropped. -/
def update_wallet_balance (old new_ : Transaction) (ws : List Wallet) :
    Option (List Wallet) :=
  match (if new_.status = .completed ∧ old.status ≠ .completed then
           (if creditViolates ws new_.walletId new_.amount then none
            else some (creditWallets ws new_.walletId new_.amount))
         else some ws) with
  | none => none
  | some ws1 =>
    if (new_.status = .cancelled ∨ new_.status = .failed) ∧ old.status = .completed then
      (if debitViolates ws1 old.walletId old.amount then none
       else some (debitWallets ws1 old.walletId old.amount))
    else some ws1

/-- Runs `UPDATE transactions SET status = s WHERE id = txId`, with the
`update_wallet_balance_on_transaction_update` trigger firing on the updated
row.  If no row matches, nothing happens.  If the trigger raises on the
balance CHECK, the whole statement is rolled back and the error propagates
to the caller: result `none`, no row changed. -/
def updateTransactionStatusE (db : DB) (txId : Nat) (s : TxStatus) : Option DB :=
  match db.transactions.find? (fun t => t.id == txId) with
  | none => some db
  | some old =>
    match update_wallet_balance old { old with status := s } db.wallets with
    | none => none
    | some ws =>
      some { db with
             transactions := db.transactions.map fun t =>
               if t.id == txId then { t with status := s } else t
             wallets := ws }

/-- The observable effect of the status update on a caller that catches the
error (every call site in the source wraps it in `try/catch`): on a CHECK
abort the database is unchanged. -/
def updateTransactionStatus (db : DB) (txId : Nat) (s : TxStatus) : DB :=
  (updateTransactionStatusE db txId s).getD db

/-- The `setTimeout` settlement callback scheduled by `fundWallet` /
`withdrawFunds`: `UPDATE transactions SET status = 'completed' WHERE id = …`.
`updFail` is an opaque backend failure of that update (caught and logged by
the callback's own `try/catch`, so it has no further effect). -/
def settleTransaction (db : DB) (txId : Nat) (updFail : Bool) : DB :=
  if updFail then db else updateTransactionStatus db txId .completed

/-- Embeds `fundWallet(amount, paymentMethod)` from `WalletContext.tsx`.
`now` is `Date.now()` at the call; `insFail` is an opaque backend failure of
the transaction insert. -/
def fundWallet (db : DB) (uid? : Option Nat) (amount : Int) (paymentMethod : String)
    (now : Nat) (insFail : Bool) : DB × OpResult :=
  match resolveWallet db uid? with
  | none => (db, ⟨false, some "Wallet not found"⟩)
  | some w =>
    if amount ≤ 0 then (db, ⟨false, some "Amount must be greater than 0"⟩)
    else
      let ref := "DEP_" ++ toString now
      if insFail || referenceTaken db ref then
        (db, ⟨false, some "Failed to fund wallet"⟩)
      else
        let tx : Transaction :=
          { id := db.nextId, walletId := w.id, kind := .deposit, amount := amount
            status := .pending, description := "Wallet funding via " ++ paymentMethod
            reference := ref, metadata := [("paymentMethod", paymentMethod)], createdAt := now }
        ({ db with transactions := tx :: db.transactions, nextId := db.nextId + 1 },
         ⟨true, none⟩)

/-- Embeds `withdrawFunds(amount, accountDetails)` from `WalletContext.tsx`. -/
def withdrawFunds (db : DB) (uid? : Option Nat) (amount : Int) (accountDetails : String)
    (now : Nat) (insFail : Bool) : DB × OpResult :=
  match resolveWallet db uid? with
  | none => (db, ⟨false, some "Wallet not found"⟩)
  | some w =>
    if amount ≤ 0 then (db, ⟨false, some "Amount must be greater than 0"⟩)
    else if w.balance < amount then (db, ⟨false, some "Insufficient balance"⟩)
    else
      let ref := "WTH_" ++ toString now
      if insFail || referenceTaken db ref then
        (db, ⟨false, some "Failed to withdraw funds"⟩)
      else
        let tx : Transaction :=
          { id := db.nextId, walletId := w.id, kind := .withdrawal, amount := -amount
            status := .pending, description := "Withdrawal to " ++ accountDetails
            reference := ref, metadata := [("accountDetails", accountDetails)], createdAt := now }
        ({ db with transactions := tx :: db.transactions, nextId := db.nextId + 1 },
         ⟨true, none⟩)

/-- Per-step backend failure flags for `makePayment`: the product select,
the order insert, the transaction insert, and the final order update. -/
structure PayFails where
  productFail : Bool
  orderFail : Bool
  txFail : Bool
  updFail : Bool
deriving DecidableEq, Repr

def PayFails.none' : PayFails := ⟨false, false, false, false⟩

/-- Embeds `makePayment(productId, amount)` from `WalletContext.tsx`.  The final
`UPDATE orders SET payment_transaction_id = …, status = 'paid'` has its
result ignored by the source (no error check), so its failure still returns
`success: true`.  The payment transaction is INSERTed with status
`'completed'`; since the balance trigger is attached AFTER UPDATE only, no
balance change accompanies it. -/
def makePayment (db : DB) (uid? : Option Nat) (productId : Nat) (amount : Int)
    (now : Nat) (f : PayFails) : DB × PayResult :=
  match resolveWallet db uid? with
  | none => (db, ⟨false, none, some "Wallet not found"⟩)
  | some w =>
    if amount ≤ 0 then (db, ⟨false, none, some "Amount must be greater than 0"⟩)
    else if w.balance < amount then (db, ⟨false, none, some "Insufficient balance"⟩)
    else
      match (if f.productFail then none else db.products.find? fun p => p.id == productId) with
      | none => (db, ⟨false, none, some "Failed to make payment"⟩)
      | some product =>
        if f.orderFail then (db, ⟨false, none, some "Failed to make payment"⟩)
        else
          let order : Order :=
            { id := db.nextId, buyerId := w.userId, productId := productId, amount := amount
              status := .pending, paymentTransactionId := none, createdAt := now }
          let db1 : DB :=
            { db with orders := order :: db.orders, nextId := db.nextId + 1 }
          let ref := "PAY_" ++ toString now
          -- the order insert does not change `transactions`, so the UNIQUE
          -- check reads the same rows in `db1` as in `db`
          if f.txFail || referenceTaken db ref then
            (db1, ⟨false, none, some "Failed to make payment"⟩)
          else
            let tx : Transaction :=
              { id := db1.nextId, walletId := w.id, kind := .payment, amount := -amount
                status := .completed, description := "Payment for " ++ product.title
                reference := ref
                metadata := [("orderId", toString order.id), ("productId", toString productId)]
                createdAt := now }
            let db2 : DB :=
              { db1 with transactions := tx :: db1.transactions, nextId := db1.nextId + 1 }
            let db3 : DB :=
              if f.updFail then db2
              else { db2 with
                     orders := db2.orders.map fun o =>
                       if o.id == order.id then
                         { o with status := .paid, paymentTransactionId := some tx.id }
                       else o }
            (db3, ⟨true, some order.id, none⟩)

/-- Descending creation-time order on transactions
(`.order('created_at', \x7b ascending: false \x7d)`). -/
def laterTxFirst (a b : Transaction) : Prop := b.createdAt ≤ a.createdAt

instance : DecidableRel laterTxFirst := fun a b => Nat.decLe b.createdAt a.createdAt

instance : IsTotal Transaction laterTxFirst := ⟨fun a b => Nat.le_total b.createdAt a.createdAt⟩

instance : IsTrans Transaction laterTxFirst := ⟨fun _ _ _ h1 h2 => Nat.le_trans h2 h1⟩

/-- Descending creation-time order on orders. -/
def laterOrderFirst (a b : Order) : Prop := b.createdAt ≤ a.createdAt

instance : DecidableRel laterOrderFirst := fun a b => Nat.decLe b.createdAt a.createdAt

instance : IsTotal Order laterOrderFirst := ⟨fun a b => Nat.le_total b.createdAt a.createdAt⟩

instance : IsTrans Order laterOrderFirst := ⟨fun _ _ _ h1 h2 => Nat.le_trans h2 h1⟩

/-- Embeds `loadTransactions` from `WalletContext.tsx`: select the wallet's rows,
order by `created_at` descending, limit 50. -/
def loadTransactions (db : DB) (walletId : Nat) (limit : Nat) : List Transaction :=
  (((db.transactions.filter fun t => t.walletId == walletId).insertionSort
      laterTxFirst).take limit)

/-- Embeds `loadOrders` from `WalletContext.tsx`: select the buyer's rows, order by
`created_at` descending, limit 50. -/
def loadOrders (db : DB) (buyerId : Nat) (limit : Nat) : List Order :=
  (((db.orders.filter fun o => o.buyerId == buyerId).insertionSort
      laterOrderFirst).take limit)

/-- Sum of the signed amounts of a wallet's `completed` transactions. -/
def completedSum (db : DB) (walletId : Nat) : Int :=
  ((db.transactions.filter fun t => t.walletId == walletId && t.status == .completed).map
    (fun t => t.amount)).sum

/-- One invocation of a public operation or of a settlement callback. -/
inductive Step where
  | fund (uid? : Option Nat) (amount : Int) (method : String) (now : Nat) (insFail : Bool)
  | withdraw (uid? : Option Nat) (amount : Int) (dest : String) (now : Nat) (insFail : Bool)
  | pay (uid? : Option Nat) (productId : Nat) (amount : Int) (now : Nat) (f : PayFails)
  | settle (txId : Nat) (updFail : Bool)

/-- State transition of one step (results discarded). -/
def stepDB (db : DB) : Step → DB
  | .fund uid? amount method now insFail => (fundWallet db uid? amount method now insFail).1
  | .withdraw uid? amount dest now insFail => (withdrawFunds db uid? amount dest now insFail).1
  | .pay uid? productId amount now f => (makePayment db uid? productId amount now f).1
  | .settle txId updFail => settleTransaction db txId updFail

/-- Run a sequence of steps. -/
def runSteps (db : DB) (ss : List Step) : DB := ss.foldl stepDB db

/-! ### Helper lemmas about the status-update path -/

theorem find?_setStatus (l : List Transaction) (txId : Nat) (s : TxStatus) :
    (l.map fun t => if t.id == txId then { t with status := s } else t).find?
        (fun t => t.id == txId)
      = (l.find? fun t => t.id == txId).map fun t => { t with status := s } := by
  induction l with
  | nil => rfl
  | cons a l ih =>
    simp only [List.map_cons, List.find?_cons]
    by_cases h : a.id = txId
    · have hb : (a.id == txId) = true := by simpa using h
      simp [hb, h, -List.find?_map]
    · have hb : (a.id == txId) = false := by simpa using h
      rw [hb]
      simp only [Bool.false_eq_true, if_false, hb]
      exact ih

theorem updateTransactionStatus_of_none (db : DB) (txId : Nat) (s : TxStatus)
    (h : db.transactions.find? (fun t => t.id == txId) = none) :
    updateTransactionStatus db txId s = db := by
  unfold updateTransactionStatus updateTransactionStatusE
  rw [h]
  rfl

theorem updateTransactionStatus_some (db : DB) (txId : Nat) (s : TxStatus)
    (old : Transaction) (ws : List Wallet)
    (h : db.transactions.find? (fun t => t.id == txId) = some old)
    (huwb : update_wallet_balance old { old with status := s } db.wallets = some ws) :
    updateTransactionStatus db txId s
      = { db with
          transactions := db.transactions.map fun t =>
            if t.id == txId then { t with status := s } else t
          wallets := ws } := by
  unfold updateTransactionStatus updateTransactionStatusE
  rw [h]
  dsimp only
  rw [huwb]
  rfl

theorem updateTransactionStatus_abort (db : DB) (txId : Nat) (s : TxStatus)
    (old : Transaction)
    (h : db.transactions.find? (fun t => t.id == txId) = some old)
    (huwb : update_wallet_balance old { old with status := s } db.wallets = none) :
    updateTransactionStatus db txId s = db := by
  unfold updateTransactionStatus updateTransactionStatusE
  rw [h]
  dsimp only
  rw [huwb]
  rfl

theorem uwb_completed_to_completed (old : Transaction) (ws : List Wallet)
    (h : old.status = .completed) :
    update_wallet_balance old { old with status := .completed } ws = some ws := by
  simp [update_wallet_balance, h]

theorem uwb_to_completed_of_not_completed (old : Transaction) (ws : List Wallet)
    (h : old.status ≠ .completed)
    (hv : creditViolates ws old.walletId old.amount = false) :
    update_wallet_balance old { old with status := .completed } ws
      = some (creditWallets ws old.walletId old.amount) := by
  simp [update_wallet_balance, h, hv]

theorem uwb_to_completed_violation (old : Transaction) (ws : List Wallet)
    (h : old.status ≠ .completed)
    (hv : creditViolates ws old.walletId old.amount = true) :
    update_wallet_balance old { old with status := .completed } ws = none := by
  simp [update_wallet_balance, h, hv]

theorem uwb_to_failed_of_completed (old : Transaction) (ws : List Wallet)
    (h : old.status = .completed)
    (hv : debitViolates ws old.walletId old.amount = false) :
    update_wallet_balance old { old with status := .failed } ws
      = some (debitWallets ws old.walletId old.amount) := by
  simp [update_wallet_balance, h, hv]

theorem uwb_to_failed_violation (old : Transaction) (ws : List Wallet)
    (h : old.status = .completed)
    (hv : debitViolates ws old.walletId old.amount = true) :
    update_wallet_balance old { old with status := .failed } ws = none := by
  simp [update_wallet_balance, h, hv]

theorem uwb_to_failed_of_not_completed (old : Transaction) (ws : List Wallet)
    (h : old.status ≠ .completed) :
    update_wallet_balance old { old with status := .failed } ws = some ws := by
  simp [update_wallet_balance, h]

theorem creditViolates_false_of_ok {ws : List Wallet} {wid : Nat} {amt : Int}
    (hok : walletsOk ws = true) (hpos : 0 < amt) :
    creditViolates ws wid amt = false := by
  rw [creditViolates, List.any_eq_false]
  intro w hw
  have hb : (0 : Int) ≤ w.balance := by
    have := (List.all_eq_true.mp hok) w hw
    simpa using this
  simp only [Bool.and_eq_true, decide_eq_true_eq, not_and]
  intro _
  omega

/-! ### Branch-shape lemmas for the three public operations -/

/-- The pending deposit row `fundWallet` inserts. -/
def fundTx (db : DB) (w : Wallet) (amount : Int) (m : String) (now : Nat) : Transaction :=
  { id := db.nextId, walletId := w.id, kind := .deposit, amount := amount
    status := .pending, description := "Wallet funding via " ++ m
    reference := "DEP_" ++ toString now, metadata := [("paymentMethod", m)], createdAt := now }

/-- The pending withdrawal row `withdrawFunds` inserts. -/
def withdrawTx (db : DB) (w : Wallet) (amount : Int) (dest : String) (now : Nat) : Transaction :=
  { id := db.nextId, walletId := w.id, kind := .withdrawal, amount := -amount
    status := .pending, description := "Withdrawal to " ++ dest
    reference := "WTH_" ++ toString now, metadata := [("accountDetails", dest)], createdAt := now }

/-- The pending order row `makePayment` inserts. -/
def payOrder (db : DB) (w : Wallet) (pid : Nat) (amount : Int) (now : Nat) : Order :=
  { id := db.nextId, buyerId := w.userId, productId := pid, amount := amount
    status := .pending, paymentTransactionId := none, createdAt := now }

/-- The completed payment row `makePayment` inserts (after the order insert,
so its id is `db.nextId + 1`). -/
def payTx (db : DB) (w : Wallet) (product : Product) (pid : Nat) (amount : Int)
    (now : Nat) : Transaction :=
  { id := db.nextId + 1, walletId := w.id, kind := .payment, amount := -amount
    status := .completed, description := "Payment for " ++ product.title
    reference := "PAY_" ++ toString now
    metadata := [("orderId", toString db.nextId), ("productId", toString pid)]
    createdAt := now }

theorem fundWallet_no_wallet {db : DB} {uid? : Option Nat} (amount : Int) (m : String)
    (now : Nat) (insF : Bool) (h : resolveWallet db uid? = none) :
    fundWallet db uid? amount m now insF = (db, ⟨false, some "Wallet not found"⟩) := by
  unfold fundWallet
  rw [h]

theorem fundWallet_bad_amount {db : DB} {uid? : Option Nat} {w : Wallet} {amount : Int}
    (m : String) (now : Nat) (insF : Bool) (h : resolveWallet db uid? = some w)
    (h1 : amount ≤ 0) :
    fundWallet db uid? amount m now insF
      = (db, ⟨false, some "Amount must be greater than 0"⟩) := by
  unfold fundWallet
  rw [h]
  dsimp only
  rw [if_pos h1]

theorem fundWallet_insert_fails {db : DB} {uid? : Option Nat} {w : Wallet} {amount : Int}
    (m : String) {now : Nat} {insF : Bool} (h : resolveWallet db uid? = some w)
    (h1 : ¬amount ≤ 0) (h2 : (insF || referenceTaken db ("DEP_" ++ toString now)) = true) :
    fundWallet db uid? amount m now insF = (db, ⟨false, some "Failed to fund wallet"⟩) := by
  unfold fundWallet
  rw [h]
  dsimp only
  rw [if_neg h1, if_pos h2]

theorem fundWallet_success {db : DB} {uid? : Option Nat} {w : Wallet} {amount : Int}
    {m : String} {now : Nat} {insF : Bool} (h : resolveWallet db uid? = some w)
    (h1 : ¬amount ≤ 0) (h2 : (insF || referenceTaken db ("DEP_" ++ toString now)) = false) :
    fundWallet db uid? amount m now insF
      = ({ db with transactions := fundTx db w amount m now :: db.transactions,
                   nextId := db.nextId + 1 }, ⟨true, none⟩) := by
  unfold fundWallet
  rw [h]
  dsimp only
  rw [if_neg h1, if_neg (by simp [h2])]
  rfl

theorem withdrawFunds_no_wallet {db : DB} {uid? : Option Nat} (amount : Int) (dest : String)
    (now : Nat) (insF : Bool) (h : resolveWallet db uid? = none) :
    withdrawFunds db uid? amount dest now insF = (db, ⟨false, some "Wallet not found"⟩) := by
  unfold withdrawFunds
  rw [h]

theorem withdrawFunds_bad_amount {db : DB} {uid? : Option Nat} {w : Wallet} {amount : Int}
    (dest : String) (now : Nat) (insF : Bool) (h : resolveWallet db uid? = some w)
    (h1 : amount ≤ 0) :
    withdrawFunds db uid? amount dest now insF
      = (db, ⟨false, some "Amount must be greater than 0"⟩) := by
  unfold withdrawFunds
  rw [h]
  dsimp only
  rw [if_pos h1]

theorem withdrawFunds_insufficient {db : DB} {uid? : Option Nat} {w : Wallet} {amount : Int}
    (dest : String) (now : Nat) (insF : Bool) (h : resolveWallet db uid? = some w)
    (h1 : ¬amount ≤ 0) (h2 : w.balance < amount) :
    withdrawFunds db uid? amount dest now insF
      = (db, ⟨false, some "Insufficient balance"⟩) := by
  unfold withdrawFunds
  rw [h]
  dsimp only
  rw [if_neg h1, if_pos h2]

theorem withdrawFunds_insert_fails {db : DB} {uid? : Option Nat} {w : Wallet} {amount : Int}
    (dest : String) {now : Nat} {insF : Bool} (h : resolveWallet db uid? = some w)
    (h1 : ¬amount ≤ 0) (h2 : ¬w.balance < amount)
    (h3 : (insF || referenceTaken db ("WTH_" ++ toString now)) = true) :
    withdrawFunds db uid? amount dest now insF
      = (db, ⟨false, some "Failed to withdraw funds"⟩) := by
  unfold withdrawFunds
  rw [h]
  dsimp only
  rw [if_neg h1, if_neg h2, if_pos h3]

theorem withdrawFunds_success {db : DB} {uid? : Option Nat} {w : Wallet} {amount : Int}
    {dest : String} {now : Nat} {insF : Bool} (h : resolveWallet db uid? = some w)
    (h1 : ¬amount ≤ 0) (h2 : ¬w.balance < amount)
    (h3 : (insF || referenceTaken db ("WTH_" ++ toString now)) = false) :
    withdrawFunds db uid? amount dest now insF
      = ({ db with transactions := withdrawTx db w amount dest now :: db.transactions,
                   nextId := db.nextId + 1 }, ⟨true, none⟩) := by
  unfold withdrawFunds
  rw [h]
  dsimp only
  rw [if_neg h1, if_neg h2, if_neg (by simp [h3])]
  rfl

/-- The state after `makePayment` has inserted its pending order. -/
def payOrderDB (db : DB) (w : Wallet) (pid : Nat) (amount : Int) (now : Nat) : DB :=
  { db with orders := payOrder db w pid amount now :: db.orders, nextId := db.nextId + 1 }

/-- The state after `makePayment` has also inserted its completed payment
transaction (no balance change: the trigger fires on UPDATE only). -/
def payDB2 (db : DB) (w : Wallet) (product : Product) (pid : Nat) (amount : Int)
    (now : Nat) : DB :=
  { db with orders := payOrder db w pid amount now :: db.orders,
            transactions := payTx db w product pid amount now :: db.transactions,
            nextId := db.nextId + 2 }

/-- The state after `makePayment` has furthermore flipped the order to paid
and attached the transaction reference. -/
def payDB3 (db : DB) (w : Wallet) (product : Product) (pid : Nat) (amount : Int)
    (now : Nat) : DB :=
  { payDB2 db w product pid amount now with
    orders := (payDB2 db w product pid amount now).orders.map fun o =>
      if o.id == db.nextId then
        { o with status := .paid, paymentTransactionId := some (db.nextId + 1) }
      else o }

theorem makePayment_no_wallet {db : DB} {uid? : Option Nat} (pid : Nat) (amount : Int)
    (now : Nat) (f : PayFails) (h : resolveWallet db uid? = none) :
    makePayment db uid? pid amount now f = (db, ⟨false, none, some "Wallet not found"⟩) := by
  unfold makePayment
  rw [h]

theorem makePayment_bad_amount {db : DB} {uid? : Option Nat} {w : Wallet} {amount : Int}
    (pid : Nat) (now : Nat) (f : PayFails) (h : resolveWallet db uid? = some w)
    (h1 : amount ≤ 0) :
    makePayment db uid? pid amount now f
      = (db, ⟨false, none, some "Amount must be greater than 0"⟩) := by
  unfold makePayment
  rw [h]
  dsimp only
  rw [if_pos h1]

theorem makePayment_insufficient {db : DB} {uid? : Option Nat} {w : Wallet} {amount : Int}
    (pid : Nat) (now : Nat) (f : PayFails) (h : resolveWallet db uid? = some w)
    (h1 : ¬amount ≤ 0) (h2 : w.balance < amount) :
    makePayment db uid? pid amount now f
      = (db, ⟨false, none, some "Insufficient balance"⟩) := by
  unfold makePayment
  rw [h]
  dsimp only
  rw [if_neg h1, if_pos h2]

theorem makePayment_no_product {db : DB} {uid? : Option Nat} {w : Wallet} {amount : Int}
    {pid : Nat} (now : Nat) {f : PayFails} (h : resolveWallet db uid? = some w)
    (h1 : ¬amount ≤ 0) (h2 : ¬w.balance < amount)
    (hp : (if f.productFail = true then none
           else db.products.find? fun p => p.id == pid) = none) :
    makePayment db uid? pid amount now f
      = (db, ⟨false, none, some "Failed to make payment"⟩) := by
  unfold makePayment
  rw [h]
  dsimp only
  rw [if_neg h1, if_neg h2, hp]

theorem makePayment_order_insert_fails {db : DB} {uid? : Option Nat} {w : Wallet}
    {amount : Int} {pid : Nat} (now : Nat) {f : PayFails} {product : Product}
    (h : resolveWallet db uid? = some w)
    (h1 : ¬amount ≤ 0) (h2 : ¬w.balance < amount)
    (hp : (if f.productFail = true then none
           else db.products.find? fun p => p.id == pid) = some product)
    (ho : f.orderFail = true) :
    makePayment db uid? pid amount now f
      = (db, ⟨false, none, some "Failed to make payment"⟩) := by
  unfold makePayment
  rw [h]
  dsimp only
  rw [if_neg h1, if_neg h2, hp]
  dsimp only
  rw [if_pos ho]

theorem makePayment_tx_insert_fails {db : DB} {uid? : Option Nat} {w : Wallet}
    {amount : Int} {pid : Nat} {now : Nat} {f : PayFails} {product : Product}
    (h : resolveWallet db uid? = some w)
    (h1 : ¬amount ≤ 0) (h2 : ¬w.balance < amount)
    (hp : (if f.productFail = true then none
           else db.products.find? fun p => p.id == pid) = some product)
    (ho : ¬f.orderFail = true)
    (ht : (f.txFail || referenceTaken db ("PAY_" ++ toString now)) = true) :
    makePayment db uid? pid amount now f
      = (payOrderDB db w pid amount now, ⟨false, none, some "Failed to make payment"⟩) := by
  unfold makePayment
  rw [h]
  dsimp only
  rw [if_neg h1, if_neg h2, hp]
  dsimp only
  rw [if_neg ho]
  rw [if_pos ht]
  rfl

theorem makePayment_order_update_fails {db : DB} {uid? : Option Nat} {w : Wallet}
    {amount : Int} {pid : Nat} {now : Nat} {f : PayFails} {product : Product}
    (h : resolveWallet db uid? = some w)
    (h1 : ¬amount ≤ 0) (h2 : ¬w.balance < amount)
    (hp : (if f.productFail = true then none
           else db.products.find? fun p => p.id == pid) = some product)
    (ho : ¬f.orderFail = true)
    (ht : (f.txFail || referenceTaken db ("PAY_" ++ toString now)) = false)
    (hu : f.updFail = true) :
    makePayment db uid? pid amount now f
      = (payDB2 db w product pid amount now, ⟨true, some db.nextId, none⟩) := by
  unfold makePayment
  rw [h]
  dsimp only
  rw [if_neg h1, if_neg h2, hp]
  dsimp only
  rw [if_neg ho]
  rw [if_neg (by simp [ht]), if_pos hu]
  rfl

theorem makePayment_success {db : DB} {uid? : Option Nat} {w : Wallet}
    {amount : Int} {pid : Nat} {now : Nat} {f : PayFails} {product : Product}
    (h : resolveWallet db uid? = some w)
    (h1 : ¬amount ≤ 0) (h2 : ¬w.balance < amount)
    (hp : (if f.productFail = true then none
           else db.products.find? fun p => p.id == pid) = some product)
    (ho : ¬f.orderFail = true)
    (ht : (f.txFail || referenceTaken db ("PAY_" ++ toString now)) = false)
    (hu : f.updFail = false) :
    makePayment db uid? pid amount now f
      = (payDB3 db w product pid amount now, ⟨true, some db.nextId, none⟩) := by
  unfold makePayment
  rw [h]
  dsimp only
  rw [if_neg h1, if_neg h2, hp]
  dsimp only
  rw [if_neg ho]
  rw [if_neg (by simp [ht]), if_neg (by simp [hu])]
  rfl

/-! ### Concrete fixtures -/

/-- One user (id 1) with an empty wallet (id 1) and one product (id 2). -/
def exampleDB : DB :=
  { wallets := [⟨1, 1, 0⟩], transactions := [], orders := [],
    products := [⟨2, "Shoe", 600⟩], nextId := 10 }

/-- The same user after a 1000 deposit has settled: one completed deposit
transaction and a stored balance of 1000 (the balance invariant holds here). -/
def fundedDB : DB :=
  { wallets := [⟨1, 1, 1000⟩],
    transactions := [{ id := 10, walletId := 1, kind := .deposit, amount := 1000,
                       status := .completed, description := "Wallet funding via bank",
                       reference := "DEP_0", metadata := [("paymentMethod", "bank")],
                       createdAt := 0 }],
    orders := [], products := [⟨2, "Shoe", 600⟩], nextId := 11 }

/-- A wallet at balance 0 holding one cancelled deposit of 1000. -/
def cancelledTxDB : DB :=
  { wallets := [⟨1, 1, 0⟩],
    transactions := [{ id := 10, walletId := 1, kind := .deposit, amount := 1000,
                       status := .cancelled, description := "Wallet funding via bank",
                       reference := "DEP_0", metadata := [("paymentMethod", "bank")],
                       createdAt := 0 }],
    orders := [], products := [], nextId := 11 }

/-- A wallet at balance 200 holding one cancelled withdrawal of 800:
re-completing it would drive the balance to −600, so the CHECK aborts. -/
def cancelledWithdrawalDB : DB :=
  { wallets := [⟨1, 1, 200⟩],
    transactions := [{ id := 10, walletId := 1, kind := .withdrawal, amount := -800,
                       status := .cancelled, description := "Withdrawal to acct",
                       reference := "WTH_0", metadata := [("accountDetails", "acct")],
                       createdAt := 0 }],
    orders := [], products := [], nextId := 11 }

/-- A reachable low-balance state: fund(1000) at t=0 settles, withdraw(800)
at t=1 settles — balance 200 with two completed transactions. -/
def reversalRunDB : DB :=
  runSteps exampleDB
    [.fund (some 1) 1000 "bank" 0 false, .settle 10 false,
     .withdraw (some 1) 800 "acct" 1 false, .settle 11 false]

/-! ### Claim C1 -/

/-- The state after fund(1000) at time 0, its settlement, and pay(product 2,
600) at time 1 — every step succeeding. -/
def payBugRun : DB :=
  runSteps exampleDB
    [.fund (some 1) 1000 "bank" 0 false, .settle 10 false,
     .pay (some 1) 2 600 1 PayFails.none']

/-- Claim C1 (code_bug): after a settled 1000 deposit followed by a
successful pay of 600, the stored balance is still 1000 while the sum of
completed transaction amounts is 400, and the order was flipped to paid.
The payment transaction is inserted already `completed`; the balance trigger
fires on UPDATE only, so pay never decrements the stored balance, violating
the balance invariant the claim states. -/
theorem C1_balance_invariant_fails_after_pay :
    payBugRun.wallets = [⟨1, 1, 1000⟩] ∧ completedSum payBugRun 1 = 400 ∧
    payBugRun.orders.map Order.status = [.paid] := by decide

/-! ### Claim C2 -/

/-- Every order marked paid references an existing completed transaction. -/
def ordersConsistent (db : DB) : Prop :=
  ∀ o ∈ db.orders, o.status = .paid →
    ∃ t ∈ db.transactions, o.paymentTransactionId = some t.id ∧ t.status = .completed

/-- Claim C2 (counterexample): an invocation of pay whose transaction insert
fails after the order insert succeeded returns failure, yet the final state
differs from the initial one — the created order persists in `pending`.  So
pay is not "either paid-with-completed-transaction-and-decremented-balance or
state unchanged". -/
theorem C2_pay_not_atomic_counterexample :
    (makePayment fundedDB (some 1) 2 600 1 ⟨false, false, true, false⟩).2.success = false ∧
    (makePayment fundedDB (some 1) 2 600 1 ⟨false, false, true, false⟩).1.orders
      = [{ id := 11, buyerId := 1, productId := 2, amount := 600, status := .pending,
           paymentTransactionId := none, createdAt := 1 }] ∧
    (makePayment fundedDB (some 1) 2 600 1 ⟨false, false, true, false⟩).1 ≠ fundedDB := by
  decide

theorem ordersConsistent_payOrderDB {db : DB} {w : Wallet} {pid : Nat} {amount : Int}
    {now : Nat} (h : ordersConsistent db) :
    ordersConsistent (payOrderDB db w pid amount now) := by
  intro o ho hpaid
  rcases List.mem_cons.mp ho with rfl | ho'
  · simp [payOrder] at hpaid
  · exact h o ho' hpaid

theorem ordersConsistent_payDB2 {db : DB} {w : Wallet} {product : Product} {pid : Nat}
    {amount : Int} {now : Nat} (h : ordersConsistent db) :
    ordersConsistent (payDB2 db w product pid amount now) := by
  intro o ho hpaid
  rcases List.mem_cons.mp ho with rfl | ho'
  · simp [payOrder] at hpaid
  · obtain ⟨t, ht, href, hc⟩ := h o ho' hpaid
    exact ⟨t, List.mem_cons_of_mem _ ht, href, hc⟩

theorem ordersConsistent_payDB3 {db : DB} {w : Wallet} {product : Product} {pid : Nat}
    {amount : Int} {now : Nat} (h : ordersConsistent db) :
    ordersConsistent (payDB3 db w product pid amount now) := by
  intro o ho hpaid
  dsimp only [payDB3, payDB2] at ho ⊢
  obtain ⟨o₀, ho₀, rfl⟩ := List.mem_map.mp ho
  by_cases hid : (o₀.id == db.nextId) = true
  · rw [if_pos hid]
    exact ⟨payTx db w product pid amount now, List.mem_cons_self _ _, rfl, rfl⟩
  · rw [if_neg hid] at hpaid ⊢
    rcases List.mem_cons.mp ho₀ with rfl | ho₀'
    · simp [payOrder] at hpaid
    · obtain ⟨t, ht, href, hc⟩ := h o₀ ho₀' hpaid
      exact ⟨t, List.mem_cons_of_mem _ ht, href, hc⟩

/-- Claim C2 (amended): pay never produces an order marked paid without an
existing completed payment transaction attached, and pay never changes the
stored wallet balances in any branch — but on a failure after the order
insert, the pending order persists (see the counterexample), and even on
success the balance is not decremented. -/
theorem C2_pay_never_paid_without_completed_tx (db : DB) (uid? : Option Nat)
    (pid : Nat) (amount : Int) (now : Nat) (f : PayFails)
    (h : ordersConsistent db) :
    ordersConsistent (makePayment db uid? pid amount now f).1 ∧
    (makePayment db uid? pid amount now f).1.wallets = db.wallets := by
  cases hw : resolveWallet db uid? with
  | none => rw [makePayment_no_wallet pid amount now f hw]; exact ⟨h, rfl⟩
  | some w =>
    by_cases h1 : amount ≤ 0
    · rw [makePayment_bad_amount pid now f hw h1]; exact ⟨h, rfl⟩
    by_cases h2 : w.balance < amount
    · rw [makePayment_insufficient pid now f hw h1 h2]; exact ⟨h, rfl⟩
    cases hp : (if f.productFail = true then none
                else db.products.find? fun p => p.id == pid) with
    | none => rw [makePayment_no_product now hw h1 h2 hp]; exact ⟨h, rfl⟩
    | some product =>
      by_cases ho : f.orderFail = true
      · rw [makePayment_order_insert_fails now hw h1 h2 hp ho]; exact ⟨h, rfl⟩
      cases ht : (f.txFail || referenceTaken db ("PAY_" ++ toString now)) with
      | true =>
        rw [makePayment_tx_insert_fails hw h1 h2 hp ho ht]
        exact ⟨ordersConsistent_payOrderDB h, rfl⟩
      | false =>
        cases hu : f.updFail with
        | true =>
          rw [makePayment_order_update_fails hw h1 h2 hp ho ht hu]
          exact ⟨ordersConsistent_payDB2 h, rfl⟩
        | false =>
          rw [makePayment_success hw h1 h2 hp ho ht hu]
          exact ⟨ordersConsistent_payDB3 h, rfl⟩

/-- Witness for C2's amended theorem at a concrete funded state. -/
theorem C2_pay_never_paid_without_completed_tx_witness :
    ordersConsistent (makePayment fundedDB (some 1) 2 600 1 PayFails.none').1 ∧
    (makePayment fundedDB (some 1) 2 600 1 PayFails.none').1.wallets = fundedDB.wallets :=
  C2_pay_never_paid_without_completed_tx fundedDB (some 1) 2 600 1 PayFails.none'
    (by intro o ho hpaid; simp [fundedDB] at ho)

/-! ### Claim C3 -/

/-- Claim C3 (counterexample): a settlement-style update setting an already
`cancelled` transaction to `completed` is not rejected — the row is updated
and the trigger credits its amount, changing the balance from 0 to 1000. -/
theorem C3_invalid_transition_not_rejected_counterexample :
    cancelledTxDB.wallets = [⟨1, 1, 0⟩] ∧
    (updateTransactionStatus cancelledTxDB 10 .completed).wallets = [⟨1, 1, 1000⟩] ∧
    (updateTransactionStatus cancelledTxDB 10 .completed).transactions.map
        Transaction.status = [.completed] := by decide

/-- Claim C3 (amended): a `completed → completed` update leaves the wallets
unchanged (the trigger's guard), but no transition is rejected with an
`InvalidTransition` error: updating a transaction that is not currently
`completed` (including `failed` or `cancelled`) to `completed` credits its
amount to the wallet whenever the resulting balance stays non-negative, and
when the credit would violate `CHECK (balance >= 0)` the whole update aborts
with a constraint violation — not an `InvalidTransition` rejection — leaving
status and balance unchanged. -/
theorem C3_completed_noop_but_resolved_reapplied :
    (∀ (db : DB) (txId : Nat) (old : Transaction),
        db.transactions.find? (fun t => t.id == txId) = some old →
        old.status = .completed →
        (updateTransactionStatus db txId .completed).wallets = db.wallets) ∧
    (∀ (db : DB) (txId : Nat) (old : Transaction),
        db.transactions.find? (fun t => t.id == txId) = some old →
        old.status ≠ .completed →
        creditViolates db.wallets old.walletId old.amount = false →
        (updateTransactionStatus db txId .completed).wallets
          = creditWallets db.wallets old.walletId old.amount) ∧
    (∀ (db : DB) (txId : Nat) (old : Transaction),
        db.transactions.find? (fun t => t.id == txId) = some old →
        old.status ≠ .completed →
        creditViolates db.wallets old.walletId old.amount = true →
        updateTransactionStatus db txId .completed = db) := by
  refine ⟨?_, ?_, ?_⟩
  · intro db txId old h hc
    rw [updateTransactionStatus_some db txId .completed old db.wallets h
          (uwb_completed_to_completed old db.wallets hc)]
  · intro db txId old h hc hv
    rw [updateTransactionStatus_some db txId .completed old
          (creditWallets db.wallets old.walletId old.amount) h
          (uwb_to_completed_of_not_completed old db.wallets hc hv)]
  · intro db txId old h hc hv
    exact updateTransactionStatus_abort db txId .completed old h
      (uwb_to_completed_violation old db.wallets hc hv)

/-- Witness for C3's amended theorem: re-completing a completed transaction
leaves wallets unchanged; completing a cancelled deposit credits its amount;
re-completing a cancelled withdrawal at low balance aborts entirely. -/
theorem C3_completed_noop_but_resolved_reapplied_witness :
    (updateTransactionStatus fundedDB 10 .completed).wallets = fundedDB.wallets ∧
    (updateTransactionStatus cancelledTxDB 10 .completed).wallets
      = creditWallets cancelledTxDB.wallets 1 1000 ∧
    updateTransactionStatus cancelledWithdrawalDB 10 .completed
      = cancelledWithdrawalDB :=
  ⟨C3_completed_noop_but_resolved_reapplied.1 fundedDB 10 _ rfl rfl,
   C3_completed_noop_but_resolved_reapplied.2.1 cancelledTxDB 10
     { id := 10, walletId := 1, kind := .deposit, amount := 1000,
       status := .cancelled, description := "Wallet funding via bank",
       reference := "DEP_0", metadata := [("paymentMethod", "bank")], createdAt := 0 }
     rfl (by decide) (by decide),
   C3_completed_noop_but_resolved_reapplied.2.2 cancelledWithdrawalDB 10
     { id := 10, walletId := 1, kind := .withdrawal, amount := -800,
       status := .cancelled, description := "Withdrawal to acct",
       reference := "WTH_0", metadata := [("accountDetails", "acct")], createdAt := 0 }
     rfl (by decide) (by decide)⟩

/-! ### Claim C4 -/

/-- Claim C4 (counterexample): in a reachable state — fund(1000) settled,
withdraw(800) settled, balance 200 — reversing the completed 1000 deposit to
`failed` would drive the balance to −800, so `CHECK (balance >= 0)` aborts
the whole update: zero decrements, status unchanged, refuting "a
completed → failed reversal … leaves the balance exactly once-decremented". -/
theorem C4_reversal_aborts_counterexample :
    reversalRunDB.wallets = [⟨1, 1, 200⟩] ∧
    reversalRunDB.transactions.map Transaction.status = [.completed, .completed] ∧
    updateTransactionStatus reversalRunDB 10 .failed = reversalRunDB := by decide

/-- Claim C4 (amended): re-applying `completed` to a transaction changes no
balance (the trigger requires OLD.status ≠ completed to credit); a
`completed → failed` reversal whose debit keeps the balance non-negative
debits the amount exactly once, and repeating the `failed` update afterwards
is a no-op on the wallets; a reversal whose debit would violate
`CHECK (balance >= 0)` aborts entirely, changing nothing. -/
theorem C4_balance_effect_applied_at_most_once :
    (∀ (db : DB) (txId : Nat),
        (updateTransactionStatus (updateTransactionStatus db txId .completed) txId
            .completed).wallets
          = (updateTransactionStatus db txId .completed).wallets) ∧
    (∀ (db : DB) (txId : Nat) (old : Transaction),
        db.transactions.find? (fun t => t.id == txId) = some old →
        old.status = .completed →
        debitViolates db.wallets old.walletId old.amount = false →
        (updateTransactionStatus db txId .failed).wallets
          = debitWallets db.wallets old.walletId old.amount ∧
        (updateTransactionStatus (updateTransactionStatus db txId .failed) txId
            .failed).wallets
          = (updateTransactionStatus db txId .failed).wallets) ∧
    (∀ (db : DB) (txId : Nat) (old : Transaction),
        db.transactions.find? (fun t => t.id == txId) = some old →
        old.status = .completed →
        debitViolates db.wallets old.walletId old.amount = true →
        updateTransactionStatus db txId .failed = db) := by
  refine ⟨?_, ?_, ?_⟩
  · intro db txId
    cases hfind : db.transactions.find? (fun t => t.id == txId) with
    | none =>
      simp only [updateTransactionStatus_of_none db txId .completed hfind]
    | some old =>
      cases huwb : update_wallet_balance old { old with status := .completed }
          db.wallets with
      | none =>
        simp only [updateTransactionStatus_abort db txId .completed old hfind huwb]
      | some ws =>
        have hsome := updateTransactionStatus_some db txId .completed old ws hfind huwb
        have h1 : (updateTransactionStatus db txId .completed).transactions.find?
            (fun t => t.id == txId) = some { old with status := .completed } := by
          rw [hsome]
          dsimp only
          rw [find?_setStatus, hfind]
          rfl
        rw [updateTransactionStatus_some (updateTransactionStatus db txId .completed)
              txId .completed { old with status := .completed }
              (updateTransactionStatus db txId .completed).wallets h1
              (uwb_completed_to_completed _ _ rfl)]
  · intro db txId old hfind hc hv
    have hsome := updateTransactionStatus_some db txId .failed old
      (debitWallets db.wallets old.walletId old.amount) hfind
      (uwb_to_failed_of_completed old db.wallets hc hv)
    refine ⟨by rw [hsome], ?_⟩
    have h1 : (updateTransactionStatus db txId .failed).transactions.find?
        (fun t => t.id == txId) = some { old with status := .failed } := by
      rw [hsome]
      dsimp only
      rw [find?_setStatus, hfind]
      rfl
    rw [updateTransactionStatus_some (updateTransactionStatus db txId .failed)
          txId .failed { old with status := .failed }
          (updateTransactionStatus db txId .failed).wallets h1
          (uwb_to_failed_of_not_completed _ _ (by simp))]
  · intro db txId old hfind hc hv
    exact updateTransactionStatus_abort db txId .failed old hfind
      (uwb_to_failed_violation old db.wallets hc hv)

/-- Witness for C4's amended theorem: at balance 1000 the reversal of the
1000 deposit debits once and a repeat changes nothing; at the reachable
balance-200 state the same reversal aborts entirely. -/
theorem C4_balance_effect_applied_at_most_once_witness :
    ((updateTransactionStatus fundedDB 10 .failed).wallets
        = debitWallets fundedDB.wallets 1 1000 ∧
     (updateTransactionStatus (updateTransactionStatus fundedDB 10 .failed) 10
         .failed).wallets
        = (updateTransactionStatus fundedDB 10 .failed).wallets) ∧
    updateTransactionStatus reversalRunDB 10 .failed = reversalRunDB :=
  ⟨C4_balance_effect_applied_at_most_once.2.1 fundedDB 10
     { id := 10, walletId := 1, kind := .deposit, amount := 1000,
       status := .completed, description := "Wallet funding via bank",
       reference := "DEP_0", metadata := [("paymentMethod", "bank")], createdAt := 0 }
     rfl rfl (by decide),
   C4_balance_effect_applied_at_most_once.2.2 reversalRunDB 10
     { id := 10, walletId := 1, kind := .deposit, amount := 1000,
       status := .completed, description := "Wallet funding via bank",
       reference := "DEP_0", metadata := [("paymentMethod", "bank")], createdAt := 0 }
     (by decide) (by decide) (by decide)⟩

/-! ### Claim C5 -/

/-- Claim C5 (counterexample): two fund calls with the same `Date.now()`
reading generate the same reference `DEP_0`; the second call — with a
positive amount, a resolvable wallet and no backend failure — hits the
UNIQUE constraint, returns failure and creates no transaction, refuting
"for every positive amount and resolvable wallet, fund creates exactly one
deposit transaction … and returns success". -/
theorem C5_fund_reference_collision_counterexample :
    (fundWallet exampleDB (some 1) 5 "bank" 0 false).2.success = true ∧
    (fundWallet (fundWallet exampleDB (some 1) 5 "bank" 0 false).1 (some 1) 7 "bank" 0
        false).2 = ⟨false, some "Failed to fund wallet"⟩ ∧
    (fundWallet (fundWallet exampleDB (some 1) 5 "bank" 0 false).1 (some 1) 7 "bank" 0
        false).1 = (fundWallet exampleDB (some 1) 5 "bank" 0 false).1 := by decide

/-- Claim C5 (amended): fund fails with the wallet-not-found error when no
wallet resolves and with the invalid-amount error when amount ≤ 0, in both
cases persisting nothing; when the wallet resolves, the amount is positive,
the backend write succeeds and no earlier transaction already carries the
reference `DEP_<now>` (references collide exactly when two calls share the
same millisecond clock reading), fund creates exactly one pending deposit
transaction with that reference, returns success immediately with the
balance unchanged, and settling the new transaction credits the amount. -/
theorem C5_fund_behavior :
    (∀ (db : DB) (uid? : Option Nat) (amount : Int) (m : String) (now : Nat) (insF : Bool),
        resolveWallet db uid? = none →
        fundWallet db uid? amount m now insF = (db, ⟨false, some "Wallet not found"⟩)) ∧
    (∀ (db : DB) (uid? : Option Nat) (w : Wallet) (amount : Int) (m : String) (now : Nat)
        (insF : Bool), resolveWallet db uid? = some w → amount ≤ 0 →
        fundWallet db uid? amount m now insF
          = (db, ⟨false, some "Amount must be greater than 0"⟩)) ∧
    (∀ (db : DB) (uid? : Option Nat) (w : Wallet) (amount : Int) (m : String) (now : Nat),
        resolveWallet db uid? = some w → 0 < amount →
        referenceTaken db ("DEP_" ++ toString now) = false →
        walletsOk db.wallets = true →
        fundWallet db uid? amount m now false
          = ({ db with transactions := fundTx db w amount m now :: db.transactions,
                       nextId := db.nextId + 1 }, ⟨true, none⟩) ∧
        (fundTx db w amount m now).status = .pending ∧
        (fundTx db w amount m now).kind = .deposit ∧
        (fundTx db w amount m now).reference = "DEP_" ++ toString now ∧
        (fundWallet db uid? amount m now false).1.wallets = db.wallets ∧
        (settleTransaction (fundWallet db uid? amount m now false).1 db.nextId
            false).wallets
          = creditWallets db.wallets w.id amount) := by
  refine ⟨?_, ?_, ?_⟩
  · intro db uid? amount m now insF h
    exact fundWallet_no_wallet amount m now insF h
  · intro db uid? w amount m now insF h h1
    exact fundWallet_bad_amount m now insF h h1
  · intro db uid? w amount m now h hpos href hok
    have h1 : ¬amount ≤ 0 := by omega
    have h2 : (false || referenceTaken db ("DEP_" ++ toString now)) = false := by
      simp [href]
    have hf := @fundWallet_success db uid? w amount m now false h h1 h2
    refine ⟨hf, rfl, rfl, rfl, by rw [hf], ?_⟩
    rw [hf]
    simp only [settleTransaction, Bool.false_eq_true, if_false]
    have hfind : ({ db with transactions := fundTx db w amount m now :: db.transactions,
                            nextId := db.nextId + 1 } : DB).transactions.find?
        (fun t => t.id == db.nextId) = some (fundTx db w amount m now) :=
      List.find?_cons_of_pos _ (by simp [fundTx])
    have hv : creditViolates db.wallets w.id amount = false :=
      creditViolates_false_of_ok hok hpos
    rw [updateTransactionStatus_some _ db.nextId .completed _ _ hfind
          (uwb_to_completed_of_not_completed _ _ (by simp [fundTx]) hv)]
    rfl

/-- Witness for C5's amended theorem on the one-user fixture. -/
theorem C5_fund_behavior_witness :
    fundWallet exampleDB none 5 "bank" 0 false
      = (exampleDB, ⟨false, some "Wallet not found"⟩) ∧
    fundWallet exampleDB (some 1) (-5) "bank" 0 false
      = (exampleDB, ⟨false, some "Amount must be greater than 0"⟩) ∧
    (settleTransaction (fundWallet exampleDB (some 1) 1000 "bank" 0 false).1
        exampleDB.nextId false).wallets
      = creditWallets exampleDB.wallets 1 1000 :=
  ⟨C5_fund_behavior.1 exampleDB none 5 "bank" 0 false rfl,
   C5_fund_behavior.2.1 exampleDB (some 1) ⟨1, 1, 0⟩ (-5) "bank" 0 false rfl (by decide),
   (C5_fund_behavior.2.2 exampleDB (some 1) ⟨1, 1, 0⟩ 1000 "bank" 0 rfl (by decide)
      rfl rfl).2.2.2.2.2⟩

/-! ### Claim C6 -/

/-- The state after one successful withdrawal of 5 at time 1 from the funded
fixture. -/
def withdrawnOnceDB : DB := (withdrawFunds fundedDB (some 1) 5 "acct" 1 false).1

/-- Claim C6 (counterexample): a second withdrawal in the same millisecond
collides on the generated reference `WTH_1`; despite a positive amount not
exceeding the balance and a resolving wallet, it fails and persists nothing,
refuting "otherwise it creates exactly one withdrawal transaction". -/
theorem C6_withdraw_reference_collision_counterexample :
    (withdrawFunds fundedDB (some 1) 5 "acct" 1 false).2.success = true ∧
    (withdrawFunds withdrawnOnceDB (some 1) 5 "acct" 1 false).2
      = ⟨false, some "Failed to withdraw funds"⟩ ∧
    (withdrawFunds withdrawnOnceDB (some 1) 5 "acct" 1 false).1 = withdrawnOnceDB := by
  decide

/-- Claim C6 (amended): withdraw fails with the wallet-not-found error when
no wallet resolves, with the invalid-amount error when amount ≤ 0, and with
the insufficient-balance error when amount exceeds the stored balance — in
each case the state is unchanged and no transaction is persisted; otherwise,
when the backend write succeeds and no earlier transaction carries the
reference `WTH_<now>`, it creates exactly one pending withdrawal transaction
with signed amount −amount, and the balance is unchanged until settlement. -/
theorem C6_withdraw_behavior :
    (∀ (db : DB) (uid? : Option Nat) (amount : Int) (dest : String) (now : Nat)
        (insF : Bool), resolveWallet db uid? = none →
        withdrawFunds db uid? amount dest now insF
          = (db, ⟨false, some "Wallet not found"⟩)) ∧
    (∀ (db : DB) (uid? : Option Nat) (w : Wallet) (amount : Int) (dest : String)
        (now : Nat) (insF : Bool), resolveWallet db uid? = some w → amount ≤ 0 →
        withdrawFunds db uid? amount dest now insF
          = (db, ⟨false, some "Amount must be greater than 0"⟩)) ∧
    (∀ (db : DB) (uid? : Option Nat) (w : Wallet) (amount : Int) (dest : String)
        (now : Nat) (insF : Bool), resolveWallet db uid? = some w → ¬amount ≤ 0 →
        w.balance < amount →
        withdrawFunds db uid? amount dest now insF
          = (db, ⟨false, some "Insufficient balance"⟩)) ∧
    (∀ (db : DB) (uid? : Option Nat) (w : Wallet) (amount : Int) (dest : String)
        (now : Nat), resolveWallet db uid? = some w → ¬amount ≤ 0 →
        ¬w.balance < amount →
        referenceTaken db ("WTH_" ++ toString now) = false →
        withdrawFunds db uid? amount dest now false
          = ({ db with transactions := withdrawTx db w amount dest now :: db.transactions,
                       nextId := db.nextId + 1 }, ⟨true, none⟩) ∧
        (withdrawTx db w amount dest now).amount = -amount ∧
        (withdrawTx db w amount dest now).status = .pending ∧
        (withdrawTx db w amount dest now).kind = .withdrawal ∧
        (withdrawFunds db uid? amount dest now false).1.wallets = db.wallets) := by
  refine ⟨?_, ?_, ?_, ?_⟩
  · intro db uid? amount dest now insF h
    exact withdrawFunds_no_wallet amount dest now insF h
  · intro db uid? w amount dest now insF h h1
    exact withdrawFunds_bad_amount dest now insF h h1
  · intro db uid? w amount dest now insF h h1 h2
    exact withdrawFunds_insufficient dest now insF h h1 h2
  · intro db uid? w amount dest now h h1 h2 href
    have h3 : (false || referenceTaken db ("WTH_" ++ toString now)) = false := by
      simp [href]
    have hf := @withdrawFunds_success db uid? w amount dest now false h h1 h2 h3
    exact ⟨hf, rfl, rfl, rfl, by rw [hf]⟩

/-- Witness for C6's amended theorem on the funded fixture (balance 1000). -/
theorem C6_withdraw_behavior_witness :
    withdrawFunds fundedDB none 5 "acct" 0 false
      = (fundedDB, ⟨false, some "Wallet not found"⟩) ∧
    withdrawFunds fundedDB (some 1) (-5) "acct" 0 false
      = (fundedDB, ⟨false, some "Amount must be greater than 0"⟩) ∧
    withdrawFunds fundedDB (some 1) 2000 "acct" 0 false
      = (fundedDB, ⟨false, some "Insufficient balance"⟩) ∧
    (withdrawFunds fundedDB (some 1) 400 "acct" 0 false).1.wallets = fundedDB.wallets :=
  ⟨C6_withdraw_behavior.1 fundedDB none 5 "acct" 0 false rfl,
   C6_withdraw_behavior.2.1 fundedDB (some 1) ⟨1, 1, 1000⟩ (-5) "acct" 0 false rfl
     (by decide),
   C6_withdraw_behavior.2.2.1 fundedDB (some 1) ⟨1, 1, 1000⟩ 2000 "acct" 0 false rfl
     (by decide) (by decide),
   (C6_withdraw_behavior.2.2.2 fundedDB (some 1) ⟨1, 1, 1000⟩ 400 "acct" 0 rfl
     (by decide) (by decide) rfl).2.2.2.2⟩

/-! ### Claim C7 -/

/-- The sign law for one transaction row. -/
def signOK (t : Transaction) : Prop :=
  ((t.kind = .deposit ∨ t.kind = .refund) ↔ 0 < t.amount) ∧
  ((t.kind = .withdrawal ∨ t.kind = .payment) ↔ t.amount < 0)

theorem signOK_fundTx {db : DB} {w : Wallet} {amount : Int} {m : String} {now : Nat}
    (h1 : ¬amount ≤ 0) : signOK (fundTx db w amount m now) := by
  unfold signOK fundTx
  dsimp only
  constructor
  · constructor
    · intro _; omega
    · intro _; exact Or.inl rfl
  · constructor
    · rintro (h | h) <;> cases h
    · intro hc; omega

theorem signOK_withdrawTx {db : DB} {w : Wallet} {amount : Int} {dest : String} {now : Nat}
    (h1 : ¬amount ≤ 0) : signOK (withdrawTx db w amount dest now) := by
  unfold signOK withdrawTx
  dsimp only
  constructor
  · constructor
    · rintro (h | h) <;> cases h
    · intro hc; omega
  · constructor
    · intro _; omega
    · intro _; exact Or.inl rfl

theorem signOK_payTx {db : DB} {w : Wallet} {product : Product} {pid : Nat} {amount : Int}
    {now : Nat} (h1 : ¬amount ≤ 0) : signOK (payTx db w product pid amount now) := by
  unfold signOK payTx
  dsimp only
  constructor
  · constructor
    · rintro (h | h) <;> cases h
    · intro hc; omega
  · constructor
    · intro _; omega
    · intro _; exact Or.inr rfl

theorem signOK_setStatus (t : Transaction) (s : TxStatus) :
    signOK { t with status := s } ↔ signOK t := Iff.rfl

theorem signOK_stepDB {db : DB} (h : ∀ t ∈ db.transactions, signOK t) (s : Step) :
    ∀ t ∈ (stepDB db s).transactions, signOK t := by
  cases s with
  | fund uid? amount m now insFail =>
    dsimp only [stepDB]
    cases hw : resolveWallet db uid? with
    | none => rw [fundWallet_no_wallet amount m now insFail hw]; exact h
    | some w =>
      by_cases h1 : amount ≤ 0
      · rw [fundWallet_bad_amount m now insFail hw h1]; exact h
      cases h2 : (insFail || referenceTaken db ("DEP_" ++ toString now)) with
      | true => rw [fundWallet_insert_fails m hw h1 h2]; exact h
      | false =>
        rw [fundWallet_success hw h1 h2]
        intro t ht
        rcases List.mem_cons.mp ht with rfl | ht'
        · exact signOK_fundTx h1
        · exact h t ht'
  | withdraw uid? amount dest now insFail =>
    dsimp only [stepDB]
    cases hw : resolveWallet db uid? with
    | none => rw [withdrawFunds_no_wallet amount dest now insFail hw]; exact h
    | some w =>
      by_cases h1 : amount ≤ 0
      · rw [withdrawFunds_bad_amount dest now insFail hw h1]; exact h
      by_cases h2 : w.balance < amount
      · rw [withdrawFunds_insufficient dest now insFail hw h1 h2]; exact h
      cases h3 : (insFail || referenceTaken db ("WTH_" ++ toString now)) with
      | true => rw [withdrawFunds_insert_fails dest hw h1 h2 h3]; exact h
      | false =>
        rw [withdrawFunds_success hw h1 h2 h3]
        intro t ht
        rcases List.mem_cons.mp ht with rfl | ht'
        · exact signOK_withdrawTx h1
        · exact h t ht'
  | pay uid? pid amount now f =>
    dsimp only [stepDB]
    cases hw : resolveWallet db uid? with
    | none => rw [makePayment_no_wallet pid amount now f hw]; exact h
    | some w =>
      by_cases h1 : amount ≤ 0
      · rw [makePayment_bad_amount pid now f hw h1]; exact h
      by_cases h2 : w.balance < amount
      · rw [makePayment_insufficient pid now f hw h1 h2]; exact h
      cases hp : (if f.productFail = true then none
                  else db.products.find? fun p => p.id == pid) with
      | none => rw [makePayment_no_product now hw h1 h2 hp]; exact h
      | some product =>
        by_cases ho : f.orderFail = true
        · rw [makePayment_order_insert_fails now hw h1 h2 hp ho]; exact h
        cases ht : (f.txFail || referenceTaken db ("PAY_" ++ toString now)) with
        | true => rw [makePayment_tx_insert_fails hw h1 h2 hp ho ht]; exact h
        | false =>
          cases hu : f.updFail with
          | true =>
            rw [makePayment_order_update_fails hw h1 h2 hp ho ht hu]
            intro t htm
            rcases List.mem_cons.mp htm with rfl | ht'
            · exact signOK_payTx h1
            · exact h t ht'
          | false =>
            rw [makePayment_success hw h1 h2 hp ho ht hu]
            intro t htm
            rcases List.mem_cons.mp htm with rfl | ht'
            · exact signOK_payTx h1
            · exact h t ht'
  | settle txId updFail =>
    dsimp only [stepDB, settleTransaction]
    cases updFail with
    | true => exact h
    | false =>
      cases hfind : db.transactions.find? (fun t => t.id == txId) with
      | none =>
        rw [if_neg (by simp), updateTransactionStatus_of_none db txId .completed hfind]
        exact h
      | some old =>
        rw [if_neg (by simp)]
        cases huwb : update_wallet_balance old { old with status := .completed }
            db.wallets with
        | none =>
          rw [updateTransactionStatus_abort db txId .completed old hfind huwb]
          exact h
        | some ws =>
          rw [updateTransactionStatus_some db txId .completed old ws hfind huwb]
          intro t htm
          obtain ⟨t₀, ht₀, rfl⟩ := List.mem_map.mp htm
          by_cases hid : (t₀.id == txId) = true
          · rw [if_pos hid]
            exact (signOK_setStatus t₀ .completed).mpr (h t₀ ht₀)
          · rw [if_neg hid]
            exact h t₀ ht₀

/-- Claim C7: in every state reachable from a sign-correct state (in
particular from a transaction-free one) by any sequence of public operations
and settlement callbacks, every transaction's kind is deposit/refund iff its
amount is positive, and withdrawal/payment iff its amount is negative. -/
theorem C7_sign_law (db : DB) (ss : List Step)
    (h : ∀ t ∈ db.transactions, signOK t) :
    ∀ t ∈ (runSteps db ss).transactions, signOK t := by
  induction ss generalizing db with
  | nil => exact h
  | cons s ss ih => exact ih (stepDB db s) (signOK_stepDB h s)

/-- Witness for C7: the deposit row created by a concrete fund call
satisfies the sign law. -/
theorem C7_sign_law_witness :
    signOK { id := 10, walletId := 1, kind := .deposit, amount := 1000,
             status := .pending, description := "Wallet funding via bank",
             reference := "DEP_0", metadata := [("paymentMethod", "bank")],
             createdAt := 0 } :=
  C7_sign_law exampleDB [.fund (some 1) 1000 "bank" 0 false]
    (fun t ht => absurd ht (List.not_mem_nil t)) _ (by decide)

/-! ### Claim C8 -/

/-- Claim C8: the read operations are pure functions of the state (they
return a list and touch nothing), and return rows of the requested wallet
(resp. buyer) ordered by creation time descending. -/
theorem C8_reads_sorted_descending :
    (∀ (db : DB) (wid lim : Nat),
        List.Sorted laterTxFirst (loadTransactions db wid lim) ∧
        ∀ t ∈ loadTransactions db wid lim, t ∈ db.transactions ∧ t.walletId = wid) ∧
    (∀ (db : DB) (bid lim : Nat),
        List.Sorted laterOrderFirst (loadOrders db bid lim) ∧
        ∀ o ∈ loadOrders db bid lim, o ∈ db.orders ∧ o.buyerId = bid) := by
  constructor
  · intro db wid lim
    constructor
    · exact (List.sorted_insertionSort laterTxFirst _).sublist (List.take_sublist _ _)
    · intro t ht
      have ht2 : t ∈ db.transactions.filter fun t => t.walletId == wid :=
        (List.mem_insertionSort laterTxFirst).mp (List.mem_of_mem_take ht)
      have hm := List.mem_filter.mp ht2
      exact ⟨hm.1, by simpa using hm.2⟩
  · intro db bid lim
    constructor
    · exact (List.sorted_insertionSort laterOrderFirst _).sublist (List.take_sublist _ _)
    · intro o ho
      have ho2 : o ∈ db.orders.filter fun o => o.buyerId == bid :=
        (List.mem_insertionSort laterOrderFirst).mp (List.mem_of_mem_take ho)
      have hm := List.mem_filter.mp ho2
      exact ⟨hm.1, by simpa using hm.2⟩

/-- Witness for C8 on the funded fixture. -/
theorem C8_reads_sorted_descending_witness :
    List.Sorted laterTxFirst (loadTransactions fundedDB 1 50) ∧
    ({ id := 10, walletId := 1, kind := .deposit, amount := 1000,
       status := .completed, description := "Wallet funding via bank",
       reference := "DEP_0", metadata := [("paymentMethod", "bank")],
       createdAt := 0 } : Transaction) ∈ fundedDB.transactions :=
  ⟨(C8_reads_sorted_descending.1 fundedDB 1 50).1,
   ((C8_reads_sorted_descending.1 fundedDB 1 50).2 _ (by decide)).1⟩

/-! ### Claim C9 -/

/-- Claim C9: when no wallet resolves for the caller (no profile or no
wallet row), each public operation returns the wallet-not-found failure and
leaves the state untouched — for every amount, including invalid ones, so
the wallet-existence check takes precedence over amount validation. -/
theorem C9_wallet_check_precedence (db : DB) (uid? : Option Nat) (amount : Int)
    (m dest : String) (now pid : Nat) (insF : Bool) (f : PayFails)
    (h : resolveWallet db uid? = none) :
    fundWallet db uid? amount m now insF = (db, ⟨false, some "Wallet not found"⟩) ∧
    withdrawFunds db uid? amount dest now insF = (db, ⟨false, some "Wallet not found"⟩) ∧
    makePayment db uid? pid amount now f = (db, ⟨false, none, some "Wallet not found"⟩) :=
  ⟨fundWallet_no_wallet amount m now insF h,
   withdrawFunds_no_wallet amount dest now insF h,
   makePayment_no_wallet pid amount now f h⟩

/-- Witness for C9: with no caller profile and a negative amount, all three
operations report the wallet-not-found error and change nothing. -/
theorem C9_wallet_check_precedence_witness :
    fundWallet exampleDB none (-5) "bank" 0 false
      = (exampleDB, ⟨false, some "Wallet not found"⟩) ∧
    withdrawFunds exampleDB none (-5) "acct" 0 false
      = (exampleDB, ⟨false, some "Wallet not found"⟩) ∧
    makePayment exampleDB none 2 (-5) 0 PayFails.none'
      = (exampleDB, ⟨false, none, some "Wallet not found"⟩) :=
  C9_wallet_check_precedence exampleDB none (-5) "bank" "acct" 0 2 false PayFails.none' rfl

/-! ### Claim C10 -/

/-- Claim C10 (counterexample): `makePayment` never checks the result of its
final order update; with that one write failing, the call still returns
success with no error message while the order is left `pending` without a
transaction reference — so not every internal persistence failure yields
success = false with an error message. -/
theorem C10_ignored_order_update_failure_counterexample :
    (makePayment fundedDB (some 1) 2 600 1 ⟨false, false, false, true⟩).2
      = ⟨true, some 11, none⟩ ∧
    (makePayment fundedDB (some 1) 2 600 1 ⟨false, false, false, true⟩).1.orders.map
        Order.status = [.pending] := by decide

/-- Claim C10 (amended): no operation throws to the caller (the embedding is
total over every failure-flag combination); every persistence failure in
fund and withdraw, and every failure before the final order update in pay,
is caught and reported as success = false with an error message; but a
failure of pay's final order update is ignored — the call still reports
success = true with no error, leaving the new order pending. -/
theorem C10_failures_reported_except_final_order_update :
    (∀ (db : DB) (uid? : Option Nat) (amount : Int) (m : String) (now : Nat),
        (fundWallet db uid? amount m now true).2.success = false ∧
        ((fundWallet db uid? amount m now true).2.error).isSome = true) ∧
    (∀ (db : DB) (uid? : Option Nat) (amount : Int) (dest : String) (now : Nat),
        (withdrawFunds db uid? amount dest now true).2.success = false ∧
        ((withdrawFunds db uid? amount dest now true).2.error).isSome = true) ∧
    (∀ (db : DB) (uid? : Option Nat) (pid : Nat) (amount : Int) (now : Nat)
        (f : PayFails),
        f.productFail = true ∨ f.orderFail = true ∨ f.txFail = true →
        (makePayment db uid? pid amount now f).2.success = false ∧
        ((makePayment db uid? pid amount now f).2.error).isSome = true) ∧
    (∀ (db : DB) (uid? : Option Nat) (w : Wallet) (product : Product) (pid : Nat)
        (amount : Int) (now : Nat) (f : PayFails),
        resolveWallet db uid? = some w → ¬amount ≤ 0 → ¬w.balance < amount →
        (if f.productFail = true then none
         else db.products.find? fun p => p.id == pid) = some product →
        ¬f.orderFail = true →
        (f.txFail || referenceTaken db ("PAY_" ++ toString now)) = false →
        f.updFail = true →
        (makePayment db uid? pid amount now f).2 = ⟨true, some db.nextId, none⟩ ∧
        (makePayment db uid? pid amount now f).1.orders.map Order.status
          = .pending :: db.orders.map Order.status) := by
  refine ⟨?_, ?_, ?_, ?_⟩
  · intro db uid? amount m now
    cases hw : resolveWallet db uid? with
    | none => rw [fundWallet_no_wallet amount m now true hw]; exact ⟨rfl, rfl⟩
    | some w =>
      by_cases h1 : amount ≤ 0
      · rw [fundWallet_bad_amount m now true hw h1]; exact ⟨rfl, rfl⟩
      · rw [fundWallet_insert_fails m hw h1 (by simp)]; exact ⟨rfl, rfl⟩
  · intro db uid? amount dest now
    cases hw : resolveWallet db uid? with
    | none => rw [withdrawFunds_no_wallet amount dest now true hw]; exact ⟨rfl, rfl⟩
    | some w =>
      by_cases h1 : amount ≤ 0
      · rw [withdrawFunds_bad_amount dest now true hw h1]; exact ⟨rfl, rfl⟩
      by_cases h2 : w.balance < amount
      · rw [withdrawFunds_insufficient dest now true hw h1 h2]; exact ⟨rfl, rfl⟩
      · rw [withdrawFunds_insert_fails dest hw h1 h2 (by simp)]; exact ⟨rfl, rfl⟩
  · intro db uid? pid amount now f hflag
    cases hw : resolveWallet db uid? with
    | none => rw [makePayment_no_wallet pid amount now f hw]; exact ⟨rfl, rfl⟩
    | some w =>
      by_cases h1 : amount ≤ 0
      · rw [makePayment_bad_amount pid now f hw h1]; exact ⟨rfl, rfl⟩
      by_cases h2 : w.balance < amount
      · rw [makePayment_insufficient pid now f hw h1 h2]; exact ⟨rfl, rfl⟩
      cases hp : (if f.productFail = true then none
                  else db.products.find? fun p => p.id == pid) with
      | none => rw [makePayment_no_product now hw h1 h2 hp]; exact ⟨rfl, rfl⟩
      | some product =>
        by_cases ho : f.orderFail = true
        · rw [makePayment_order_insert_fails now hw h1 h2 hp ho]; exact ⟨rfl, rfl⟩
        have htf : f.txFail = true := by
          rcases hflag with hx | hx | hx
          · rw [if_pos hx] at hp; simp at hp
          · exact absurd hx ho
          · exact hx
        rw [makePayment_tx_insert_fails hw h1 h2 hp ho (by simp [htf])]
        exact ⟨rfl, rfl⟩
  · intro db uid? w product pid amount now f h h1 h2 hp ho ht hu
    rw [makePayment_order_update_fails h h1 h2 hp ho ht hu]
    exact ⟨rfl, rfl⟩

/-- Witness for C10's amended theorem at concrete inputs: failing inserts
report an error for fund and withdraw; a failing product lookup reports an
error for pay; a failing final order update still reports success. -/
theorem C10_failures_reported_except_final_order_update_witness :
    ((fundWallet fundedDB (some 1) 5 "bank" 2 true).2.success = false ∧
     ((fundWallet fundedDB (some 1) 5 "bank" 2 true).2.error).isSome = true) ∧
    ((withdrawFunds fundedDB (some 1) 5 "acct" 2 true).2.success = false ∧
     ((withdrawFunds fundedDB (some 1) 5 "acct" 2 true).2.error).isSome = true) ∧
    ((makePayment fundedDB (some 1) 2 600 1 ⟨true, false, false, false⟩).2.success
        = false ∧
     ((makePayment fundedDB (some 1) 2 600 1 ⟨true, false, false, false⟩).2.error).isSome
        = true) ∧
    (makePayment fundedDB (some 1) 2 600 1 ⟨false, false, false, true⟩).2
      = ⟨true, some 11, none⟩ :=
  ⟨C10_failures_reported_except_final_order_update.1 fundedDB (some 1) 5 "bank" 2,
   C10_failures_reported_except_final_order_update.2.1 fundedDB (some 1) 5 "acct" 2,
   C10_failures_reported_except_final_order_update.2.2.1 fundedDB (some 1) 2 600 1
     ⟨true, false, false, false⟩ (Or.inl rfl),
   (C10_failures_reported_except_final_order_update.2.2.2 fundedDB (some 1)
     ⟨1, 1, 1000⟩ ⟨2, "Shoe", 600⟩ 2 600 1 ⟨false, false, false, true⟩
     rfl (by decide) (by decide) rfl (by decide) rfl rfl).1⟩

end COOUCart
